import Mathlib

/-!
Shallow embedding of `src/app2.py` (Speech-to-Text Streamlit app).

The app keeps its mutable state in Streamlit's session state; we model the
fields the claims speak about (`transcription_history`, `is_recording`,
`audio_frames`) as an explicit `SessionState` record, and each Python
method as a pure state-passing function.  The external speech-recognition
engines (`recognize_google` / `recognize_sphinx`) are black boxes to the
app; we model one engine call by its observable outcome: either a text, or
one of the exception kinds the app catches.
-/

namespace SpeechToText

/-- A raw audio frame: the byte string `in_data` handed to the PyAudio
capture callback.  Bytes are modelled as natural numbers. -/
abbrev Frame := List Nat

/-- One history record as built by `add_to_history` (app2.py:151-158):
a dict with keys `timestamp`, `transcription`, `source`. -/
structure TranscriptionRecord where
  timestamp : String
  transcription : String
  source : String
deriving Repr, DecidableEq

/-- The Streamlit session state fields relevant to the claims
(app2.py:100-110): the history list, the recording-active flag and the
frame buffer. -/
structure SessionState where
  transcription_history : List TranscriptionRecord
  is_recording : Bool
  audio_frames : List Frame
deriving Repr, DecidableEq

/-- Observable outcome of one call to a recognizer engine method
(`recognize_google`/`recognize_sphinx`): either the recognized text, or
one of the exception kinds caught in `transcribe_audio_data`
(app2.py:124-129). -/
inductive EngineOutcome where
  | ok (text : String)
  | unknownValueError
  | requestError (e : String)
  | otherError (e : String)
deriving Repr, DecidableEq

/-- The recognizer held in session state, as seen by the app: the outcome
of each engine method on given audio data.  `α` is the type of audio
data objects. -/
structure Recognizer (α : Type) where
  recognize_google : α → EngineOutcome
  recognize_sphinx : α → EngineOutcome

/-- Engine dispatch inside `transcribe_audio_data` (app2.py:115-120):
`"google"` and `"sphinx"` select their engine, any other name falls
through to the final `else` branch, which calls `recognize_google`. -/
def selected_engine_outcome {α : Type} (r : Recognizer α) (audio_data : α)
    (engine : String) : EngineOutcome :=
  if engine = "google" then r.recognize_google audio_data
  else if engine = "sphinx" then r.recognize_sphinx audio_data
  else r.recognize_google audio_data

/-- `StreamlitSpeechTranscriber.transcribe_audio_data` (app2.py:112-129):
dispatches to an engine inside a try block and maps each caught
exception kind to a `(message, False)` pair, success to `(text, True)`. -/
def transcribe_audio_data {α : Type} (r : Recognizer α) (audio_data : α)
    (engine : String) : String × Bool :=
  match selected_engine_outcome r audio_data engine with
  | .ok text => (text, true)
  | .unknownValueError =>
      ("Could not understand the audio. Please try speaking more clearly.", false)
  | .requestError e => ("Error with the recognition service: " ++ e, false)
  | .otherError e => ("An unexpected error occurred: " ++ e, false)

/-- `StreamlitSpeechTranscriber.transcribe_uploaded_file` (app2.py:131-149):
saving the upload to a temp file and reading it with `sr.AudioFile` may
raise, which the surrounding try maps to `("Error processing file: ...",
False)`; otherwise the loaded audio data is passed to
`transcribe_audio_data`.  `load` is the outcome of the fallible loading
steps. -/
def transcribe_uploaded_file {α : Type} (r : Recognizer α)
    (load : Except String α) (engine : String) : String × Bool :=
  match load with
  | .error e => ("Error processing file: " ++ e, false)
  | .ok audio_data => transcribe_audio_data r audio_data engine

/-- `StreamlitSpeechTranscriber.add_to_history` (app2.py:151-158): append
one record (timestamp, transcription, source) to the history list. -/
def add_to_history (s : SessionState) (transcription source timestamp : String) :
    SessionState :=
  { s with transcription_history :=
      s.transcription_history ++
        [{ timestamp := timestamp, transcription := transcription, source := source }] }

/-- The post-transcription step of `main` (app2.py:343-350, 389-396,
438-445): given the `(transcription, success)` pair returned by a
transcribe call, append to history exactly when `success` is true,
otherwise only show an error and leave the state alone. -/
def handle_result (s : SessionState) (result : String × Bool)
    (source timestamp : String) : SessionState :=
  if result.2 then add_to_history s result.1 source timestamp else s

/-- A WAV file as the app reads and writes it via the `wave` module:
header parameters plus the raw frame bytes. -/
structure WavFile where
  nchannels : Nat
  sampwidth : Nat
  framerate : Nat
  frames : List Nat
deriving Repr, DecidableEq

/-- `StreamlitSpeechTranscriber.convert_audio_format` (app2.py:160-185):
read the input WAV's parameters and all of its frames, write them
unchanged to `input_path.replace(".tmp", ".wav")`, and return that
output path; on any exception return `None`.  `readInput` is the outcome
of opening and reading the input file (`none` models an exception); the
result pairs the returned path with the file written. -/
def convert_audio_format (input_path : String) (readInput : Option WavFile) :
    Option (String × WavFile) :=
  match readInput with
  | none => none
  | some w =>
      let output_path := input_path.replace ".tmp" ".wav"
      some (output_path,
        { nchannels := w.nchannels, sampwidth := w.sampwidth,
          framerate := w.framerate, frames := w.frames })

/-- `StreamlitSpeechTranscriber.start_recording` (app2.py:187-190): set
the recording flag and reset the frame buffer to the empty list (both
before the PyAudio stream is opened). -/
def start_recording (s : SessionState) : SessionState :=
  { s with is_recording := true, audio_frames := [] }

/-- PyAudio stream-callback return codes used by the app. -/
inductive StreamSignal where
  | paContinue
  | paComplete
deriving Repr, DecidableEq

/-- The capture callback defined inside `start_recording` (app2.py:196-201):
if the recording flag is set, append `in_data` to the frame buffer and
continue the stream; otherwise leave the state alone and complete the
stream. -/
def callback (s : SessionState) (in_data : Frame) : SessionState × StreamSignal :=
  if s.is_recording then
    ({ s with audio_frames := s.audio_frames ++ [in_data] }, .paContinue)
  else
    (s, .paComplete)

/-- `StreamlitSpeechTranscriber.stop_recording` (app2.py:217-240): if the
recording flag is set, clear it, stop the stream, and — when the frame
buffer is non-empty — write the concatenated frames to a temporary WAV
file (1 channel, 2-byte samples, 16000 Hz) and return its name; in every
other case return `None`.  The returned option carries the file written
(in place of its temporary name).  Note the frame buffer itself is never
modified here. -/
def stop_recording (s : SessionState) : SessionState × Option WavFile :=
  if s.is_recording then
    let s1 := { s with is_recording := false }
    if s.audio_frames.isEmpty then
      (s1, none)
    else
      (s1, some { nchannels := 1, sampwidth := 2, framerate := 16000,
                  frames := s.audio_frames.flatten })
  else
    (s, none)

/-- The history panel of `main` (app2.py:460-461): records are rendered by
iterating `reversed(st.session_state.transcription_history)`. -/
def displayed_history (history : List TranscriptionRecord) :
    List TranscriptionRecord :=
  history.reverse

/-- The clear-history button of `main` (app2.py:455-457): replace the
history with the empty list. -/
def clear_history (s : SessionState) : SessionState :=
  { s with transcription_history := [] }

/-- Claim C1: for every transcription operation, if recognition succeeds
exactly one record is appended to the history (leaving every prior record
in place), and if it fails the session state is completely unchanged.
Both the recorded-audio and the uploaded-file paths of `main` feed their
`(transcription, success)` pair through the same success test, so the
statement quantifies over the pair produced by either transcribe call. -/
theorem history_grows_iff_success (s : SessionState) (result : String × Bool)
    (source timestamp : String) :
    (result.2 = true →
      (handle_result s result source timestamp).transcription_history =
        s.transcription_history ++
          [{ timestamp := timestamp, transcription := result.1, source := source }]) ∧
    (result.2 = false → handle_result s result source timestamp = s) := by
  constructor
  · intro h
    simp [handle_result, add_to_history, h]
  · intro h
    simp [handle_result, h]

/-- Witness for C1 at a concrete state and both outcomes. -/
theorem history_grows_iff_success_witness :
    ((true = true →
      (handle_result ⟨[], false, []⟩ ("hello", true) "Audio Recording" "t").transcription_history =
        [] ++ [{ timestamp := "t", transcription := "hello", source := "Audio Recording" }]) ∧
    (true = false → handle_result ⟨[], false, []⟩ ("hello", true) "Audio Recording" "t" = ⟨[], false, []⟩)) :=
  history_grows_iff_success ⟨[], false, []⟩ ("hello", true) "Audio Recording" "t"

/-- Claim C2: `transcribe_audio_data` is total on engine outcomes and maps
each of the three caught exception kinds to its `(message, False)` pair,
and a successful recognition to `(text, True)`. -/
theorem transcribe_audio_data_cases {α : Type} (r : Recognizer α) (a : α)
    (engine : String) :
    (∀ text, selected_engine_outcome r a engine = .ok text →
      transcribe_audio_data r a engine = (text, true)) ∧
    (selected_engine_outcome r a engine = .unknownValueError →
      transcribe_audio_data r a engine =
        ("Could not understand the audio. Please try speaking more clearly.", false)) ∧
    (∀ e, selected_engine_outcome r a engine = .requestError e →
      transcribe_audio_data r a engine =
        ("Error with the recognition service: " ++ e, false)) ∧
    (∀ e, selected_engine_outcome r a engine = .otherError e →
      transcribe_audio_data r a engine =
        ("An unexpected error occurred: " ++ e, false)) := by
  refine ⟨?_, ?_, ?_, ?_⟩
  · intro text h
    simp [transcribe_audio_data, h]
  · intro h
    simp [transcribe_audio_data, h]
  · intro e h
    simp [transcribe_audio_data, h]
  · intro e h
    simp [transcribe_audio_data, h]

/-- Witness for C2: a recognizer whose google engine raises a request
error on the unit audio datum. -/
theorem transcribe_audio_data_cases_witness :
    (∀ text,
      selected_engine_outcome
        (Recognizer.mk (fun _ => .requestError "down") (fun _ => .ok "s")) () "google" = .ok text →
      transcribe_audio_data
        (Recognizer.mk (fun _ => .requestError "down") (fun _ => .ok "s")) () "google" = (text, true)) ∧
    (selected_engine_outcome
        (Recognizer.mk (fun _ => .requestError "down") (fun _ => .ok "s")) () "google" = .unknownValueError →
      transcribe_audio_data
        (Recognizer.mk (fun _ => .requestError "down") (fun _ => .ok "s")) () "google" =
        ("Could not understand the audio. Please try speaking more clearly.", false)) ∧
    (∀ e, selected_engine_outcome
        (Recognizer.mk (fun _ => .requestError "down") (fun _ => .ok "s")) () "google" = .requestError e →
      transcribe_audio_data
        (Recognizer.mk (fun _ => .requestError "down") (fun _ => .ok "s")) () "google" =
        ("Error with the recognition service: " ++ e, false)) ∧
    (∀ e, selected_engine_outcome
        (Recognizer.mk (fun _ => .requestError "down") (fun _ => .ok "s")) () "google" = .otherError e →
      transcribe_audio_data
        (Recognizer.mk (fun _ => .requestError "down") (fun _ => .ok "s")) () "google" =
        ("An unexpected error occurred: " ++ e, false)) :=
  transcribe_audio_data_cases
    (Recognizer.mk (fun _ => .requestError "down") (fun _ => .ok "s")) () "google"

/-- Counterexample to claim C3 as stated: at the concrete state with the
recording flag set and one buffered frame, `stop_recording` leaves the
frame buffer non-empty — the buffer is not discarded by the stop
operation. -/
theorem stop_recording_does_not_empty_buffer :
    (stop_recording ⟨[], true, [[0]]⟩).1.audio_frames ≠ [] := by
  decide

/-- Claim C3 as amended: for every stop of an active recording with a
non-empty buffer, the buffered frames are concatenated in order into the
returned WAV file (1 channel, 2-byte samples, 16000 Hz), the
recording-active flag is cleared, and the frame buffer is left exactly as
it was (it is reset only by the next `start_recording`, not by the stop). -/
theorem stop_recording_flushes_frames (s : SessionState)
    (hrec : s.is_recording = true) (hne : s.audio_frames ≠ []) :
    (stop_recording s).1.is_recording = false ∧
    (stop_recording s).1.audio_frames = s.audio_frames ∧
    (stop_recording s).2 =
      some { nchannels := 1, sampwidth := 2, framerate := 16000,
             frames := s.audio_frames.flatten } := by
  have hne' : s.audio_frames.isEmpty = false := by
    simpa [List.isEmpty_iff] using hne
  simp [stop_recording, hrec, hne']

/-- Witness for the amended C3 at a concrete recording state. -/
theorem stop_recording_flushes_frames_witness :
    (true : Bool) = true ∧ ([[1, 2], [3]] : List Frame) ≠ [] ∧
    ((stop_recording ⟨[], true, [[1, 2], [3]]⟩).1.is_recording = false ∧
     (stop_recording ⟨[], true, [[1, 2], [3]]⟩).1.audio_frames = [[1, 2], [3]] ∧
     (stop_recording ⟨[], true, [[1, 2], [3]]⟩).2 =
       some { nchannels := 1, sampwidth := 2, framerate := 16000,
              frames := [1, 2, 3] }) :=
  ⟨rfl, by decide,
    stop_recording_flushes_frames ⟨[], true, [[1, 2], [3]]⟩ rfl (by decide)⟩

/-- Claim C4: the capture callback appends a frame exactly when the
recording flag is true at the invocation (continuing the stream), and a
false flag leaves the buffer alone and completes the stream. -/
theorem callback_appends_iff_recording (s : SessionState) (in_data : Frame) :
    (s.is_recording = true →
      callback s in_data =
        ({ s with audio_frames := s.audio_frames ++ [in_data] }, .paContinue)) ∧
    (s.is_recording = false →
      callback s in_data = (s, .paComplete)) := by
  constructor
  · intro h
    simp [callback, h]
  · intro h
    simp [callback, h]

/-- Witness for C4 at a concrete recording state. -/
theorem callback_appends_iff_recording_witness :
    ((true : Bool) = true →
      callback ⟨[], true, [[7]]⟩ [8] = (⟨[], true, [[7], [8]]⟩, .paContinue)) ∧
    ((true : Bool) = false →
      callback ⟨[], true, [[7]]⟩ [8] = (⟨[], true, [[7]]⟩, .paComplete)) :=
  callback_appends_iff_recording ⟨[], true, [[7]]⟩ [8]

/-- Claim C5: for every readable input WAV, `convert_audio_format` writes
an output WAV with identical channel count, sample width, frame rate and
frame bytes and returns the `.tmp`-to-`.wav` output path; when reading
raises, it returns `None`. -/
theorem convert_audio_format_preserves (input_path : String)
    (readInput : Option WavFile) :
    (∀ w, readInput = some w →
      convert_audio_format input_path readInput =
        some (input_path.replace ".tmp" ".wav",
          { nchannels := w.nchannels, sampwidth := w.sampwidth,
            framerate := w.framerate, frames := w.frames })) ∧
    (readInput = none → convert_audio_format input_path readInput = none) := by
  constructor
  · intro w h
    simp [convert_audio_format, h]
  · intro h
    simp [convert_audio_format, h]

/-- Witness for C5 on a concrete stereo input file. -/
theorem convert_audio_format_preserves_witness :
    (∀ w, (some { nchannels := 2, sampwidth := 2, framerate := 44100,
                  frames := [9, 9] } : Option WavFile) = some w →
      convert_audio_format "rec.tmp"
          (some { nchannels := 2, sampwidth := 2, framerate := 44100, frames := [9, 9] }) =
        some ((("rec.tmp" : String).replace ".tmp" ".wav"),
          { nchannels := w.nchannels, sampwidth := w.sampwidth,
            framerate := w.framerate, frames := w.frames })) ∧
    ((some { nchannels := 2, sampwidth := 2, framerate := 44100,
             frames := [9, 9] } : Option WavFile) = none →
      convert_audio_format "rec.tmp"
          (some { nchannels := 2, sampwidth := 2, framerate := 44100, frames := [9, 9] }) = none) :=
  convert_audio_format_preserves "rec.tmp"
    (some { nchannels := 2, sampwidth := 2, framerate := 44100, frames := [9, 9] })

/-- Claim C6: the history panel displays records most-recent-first: the
displayed sequence is the reverse of the append order, so the record
displayed first is the one appended last. -/
theorem displayed_history_most_recent_first (h : List TranscriptionRecord)
    (r : TranscriptionRecord) :
    (displayed_history (h ++ [r])).head? = some r ∧
    displayed_history (h ++ [r]) = (h ++ [r]).reverse := by
  constructor
  · simp [displayed_history]
  · rfl

/-- Claim C7: clearing the history replaces it with the empty list, so the
displayed list is empty afterwards, whatever the state held before. -/
theorem clear_history_empties_display (s : SessionState) :
    (clear_history s).transcription_history = [] ∧
    displayed_history (clear_history s).transcription_history = [] := by
  constructor
  · rfl
  · rfl

/-- Claim C8: any engine name other than `"google"` and `"sphinx"` falls
through to the Google engine, so the result equals the result for engine
`"google"` on the same audio data. -/
theorem unknown_engine_falls_back_to_google {α : Type} (r : Recognizer α)
    (a : α) (engine : String) (hg : engine ≠ "google") (hs : engine ≠ "sphinx") :
    transcribe_audio_data r a engine = transcribe_audio_data r a "google" := by
  simp [transcribe_audio_data, selected_engine_outcome, hg, hs]

/-- Witness for C8 with the unknown engine name `"whisper"`. -/
theorem unknown_engine_falls_back_to_google_witness :
    ("whisper" : String) ≠ "google" ∧ ("whisper" : String) ≠ "sphinx" ∧
    transcribe_audio_data
        (Recognizer.mk (fun _ => .ok "g") (fun _ => .ok "s")) () "whisper" =
      transcribe_audio_data
        (Recognizer.mk (fun _ => .ok "g") (fun _ => .ok "s")) () "google" :=
  ⟨by decide, by decide,
    unknown_engine_falls_back_to_google
      (Recognizer.mk (fun _ => .ok "g") (fun _ => .ok "s")) () "whisper"
      (by decide) (by decide)⟩

/-- Claim C9: `stop_recording` returns `None` exactly when the recording
flag is false or the frame buffer is empty; with a false flag the whole
session state is left unchanged; with a true flag and a non-empty buffer
it returns a file. -/
theorem stop_recording_none_cases (s : SessionState) :
    ((stop_recording s).2 = none ↔
      (s.is_recording = false ∨ s.audio_frames = [])) ∧
    (s.is_recording = false → stop_recording s = (s, none)) ∧
    (s.is_recording = true → s.audio_frames ≠ [] →
      ∃ w, (stop_recording s).2 = some w) := by
  refine ⟨?_, ?_, ?_⟩
  · cases hrec : s.is_recording with
    | false => simp [stop_recording, hrec]
    | true =>
        cases hne : s.audio_frames.isEmpty with
        | false =>
            have h0 : s.audio_frames ≠ [] := by
              simpa [List.isEmpty_iff] using hne
            simp [stop_recording, hrec, hne, h0]
        | true =>
            have h0 : s.audio_frames = [] := List.isEmpty_iff.mp hne
            simp [stop_recording, hrec, hne, h0]
  · intro h
    simp [stop_recording, h]
  · intro hrec hne
    have hne' : s.audio_frames.isEmpty = false := by
      simpa [List.isEmpty_iff] using hne
    exact ⟨{ nchannels := 1, sampwidth := 2, framerate := 16000,
             frames := s.audio_frames.flatten },
      by simp [stop_recording, hrec, hne']⟩

/-- Witness for C9 at an inactive state: the iff gives `None`, and the
state is returned untouched. -/
theorem stop_recording_none_cases_witness :
    ((stop_recording ⟨[], false, [[4]]⟩).2 = none ↔
      ((false : Bool) = false ∨ ([[4]] : List Frame) = [])) ∧
    ((false : Bool) = false →
      stop_recording ⟨[], false, [[4]]⟩ = (⟨[], false, [[4]]⟩, none)) ∧
    ((false : Bool) = true → ([[4]] : List Frame) ≠ [] →
      ∃ w, (stop_recording ⟨[], false, [[4]]⟩).2 = some w) :=
  stop_recording_none_cases ⟨[], false, [[4]]⟩

/-- Claim C10: `start_recording` resets the frame buffer to the empty list
and sets the recording flag, so every recording session begins with an
empty buffer holding no frames of a previous recording; the history is
untouched. -/
theorem start_recording_resets_buffer (s : SessionState) :
    (start_recording s).audio_frames = [] ∧
    (start_recording s).is_recording = true ∧
    (start_recording s).transcription_history = s.transcription_history := by
  refine ⟨rfl, rfl, rfl⟩

end SpeechToText
